import Mathlib

/-!
Verification of the rx-player playback observation subsystem.

Shallow embedding, in Lean 4, of the core playback observation builder
(`src/main_thread/init/utils/create_core_playback_observer.ts`), the worker
cross-boundary playback observer
(`src/core/init/multithread/worker/worker_playback_observer.ts`) and the DASH
ISOBMFF timing extraction (`src/transports/dash/isobmff_timing_infos.ts`),
together with theorems settling the specification claims about them.

Positions, durations and playback rates are JavaScript numbers in the source;
they are modelled as rationals (`ℚ`), which supports the fractional constants
(99.5, 0.25, 0.9) appearing in the code and the spec while keeping every
definition executable and decidable.
-/

set_option autoImplicit false

namespace RxPlayer

/-- One buffered time range `[start, stop)`, mirroring one entry of the JS
`TimeRanges` interface (`start(i)` / `end(i)`; `end` is a Lean keyword, hence
`stop`). -/
structure TimeRange where
  start : ℚ
  stop : ℚ
deriving DecidableEq, Repr

/-- Mirrors the JS test
`ranges.length === 0 || ranges.end(ranges.length - 1) < bound`
used on a `TimeRanges` object: `true` when the range list is empty or its last
range stops strictly before `bound`. -/
def lastRangeEndsBefore (ranges : List TimeRange) (bound : ℚ) : Bool :=
  match ranges.getLast? with
  | none => true
  | some r => decide (r.stop < bound)

/-- A manifest period, with its `start` and optional `end` (`stop` here), as
exposed by the manifest metadata collaborator. -/
structure IPeriodMetadata where
  start : ℚ
  stop : Option ℚ
deriving DecidableEq, Repr

/-- The slice of the manifest metadata read by this subsystem: `isDynamic`,
`isLastPeriodKnown` and the ordered period list.  The
`maximumSafePosition` attribute carries the result of the external
"maximum safe seekable position" query (see `getMaximumSafePosition`). -/
structure IManifestMetadata where
  isDynamic : Bool
  isLastPeriodKnown : Bool
  periods : List IPeriodMetadata
  maximumSafePosition : ℚ
deriving DecidableEq, Repr

/-- Modelled from the spec: the manifest collaborator "exposes … a query for
'maximum safe seekable position'" (§6).  Its computation lives outside the
provided sources, so the manifest metadata carries the query's current answer
as an abstract attribute and the query reads it. -/
def getMaximumSafePosition (manifest : IManifestMetadata) : ℚ :=
  manifest.maximumSafePosition

/-- The position information inside a base playback observation: the last
polled position and the "wanted" position (pending seek target).  Mirrors the
`ObservationPosition` object whose `getWanted` / `forceWantedPosition` methods
the builder calls. -/
structure ObservationPosition where
  last : ℚ
  wanted : ℚ
deriving DecidableEq, Repr

/-- Embeds `ObservationPosition.getWanted()`: returns the wanted position. -/
def ObservationPosition.getWanted (p : ObservationPosition) : ℚ :=
  p.wanted

/-- Embeds `ObservationPosition.forceWantedPosition(pos)`: overwrites the wanted
position.  In the JS source this is an in-place mutation of the position
object; the embedding returns the updated position, and the state-passing
model below threads that update back into the base observation slot. -/
def ObservationPosition.forceWantedPosition (p : ObservationPosition) (pos : ℚ) :
    ObservationPosition :=
  { p with wanted := pos }

/-- A base playback observation (`IPlaybackObservation`): the raw sample the
base observer publishes.  The rebuffering and freezing statuses are opaque
passthrough payloads in the source and are modelled as flags. -/
structure IPlaybackObservation where
  position : ObservationPosition
  duration : ℚ
  bufferGap : ℚ
  paused : Bool
  readyState : ℕ
  rebuffering : Bool
  freezing : Bool
  buffered : List TimeRange
deriving DecidableEq, Repr

/-- Embeds `updateWantedPositionIfAfterManifest(observation, manifest)`, translated
from `create_core_playback_observer.ts` (lines 126-155).  The JS function
returns `void` and mutates `observation.position` in place; the embedding
returns the (possibly) updated observation. -/
def updateWantedPositionIfAfterManifest (observation : IPlaybackObservation)
    (manifest : IManifestMetadata) : IPlaybackObservation :=
  if !manifest.isDynamic || manifest.isLastPeriodKnown then
    match manifest.periods.getLast? with
    | some lastPeriod =>
      match lastPeriod.stop with
      | some periodEnd =>
        if observation.position.getWanted ≥ lastPeriod.start ∧
           observation.position.getWanted ≥ periodEnd - 1 then
          if lastRangeEndsBefore observation.buffered (observation.duration - 1) then
            { observation with
                position := observation.position.forceWantedPosition (periodEnd - 1) }
          else observation
        else observation
      | none => observation
    | none => observation
  else observation

/-- The wanted-position-correction policy as the specification words it
(spec §4.6.2 and claim C1), written independently of the source's control
flow so the two can be compared: the correction applies exactly when the
manifest is not dynamic or its last period is known, the last period exists
with a known end, the wanted position is within the last second of that
period (at or past both the period start and `end − 1`), and the buffered
ranges are empty or their last range ends before `duration − 1`; it then sets
the wanted position to `end − 1`, and otherwise leaves the observation
unchanged. -/
def wantedCorrectionSpec (observation : IPlaybackObservation)
    (manifest : IManifestMetadata) : IPlaybackObservation :=
  match manifest.periods.getLast? with
  | none => observation
  | some lastPeriod =>
    match lastPeriod.stop with
    | none => observation
    | some periodEnd =>
      if (manifest.isDynamic = false ∨ manifest.isLastPeriodKnown = true) ∧
         observation.position.getWanted ≥ lastPeriod.start ∧
         observation.position.getWanted ≥ periodEnd - 1 ∧
         lastRangeEndsBefore observation.buffered (observation.duration - 1) = true
      then { observation with
               position := { observation.position with wanted := periodEnd - 1 } }
      else observation

/-- The manifest of testable property P6: non-dynamic, single period
`[0, 100)`. -/
def p6Manifest : IManifestMetadata :=
  { isDynamic := false
    isLastPeriodKnown := false
    periods := [{ start := 0, stop := some 100 }]
    maximumSafePosition := 100 }

/-- P6's base observation: wanted position 99.5, duration 100, buffered
ranges covering only `[0, 90)`. -/
def p6Observation : IPlaybackObservation :=
  { position := { last := 99.5, wanted := 99.5 }
    duration := 100
    bufferGap := 0
    paused := false
    readyState := 4
    rebuffering := false
    freezing := false
    buffered := [{ start := 0, stop := 90 }] }

/-- P6's second base observation: identical but with buffered ranges covering
`[0, 99.5)`. -/
def p6ObservationCovered : IPlaybackObservation :=
  { p6Observation with buffered := [{ start := 0, stop := 99.5 }] }

/-- C1: the wanted-position correction of the core builder is applied exactly
under the spec's conditions (the source function agrees everywhere with the
correction policy written from the spec's words), and in particular on P6's
inputs: with last period `[0, 100)`, wanted position 99.5, duration 100 and
buffered ranges `[0, 90)` the wanted position is forced to 99, while with
buffered ranges `[0, 99.5)` the observation is returned unchanged. -/
theorem updateWantedPositionIfAfterManifest_correct :
    (∀ (observation : IPlaybackObservation) (manifest : IManifestMetadata),
       updateWantedPositionIfAfterManifest observation manifest =
         wantedCorrectionSpec observation manifest) ∧
    (updateWantedPositionIfAfterManifest p6Observation p6Manifest).position.getWanted
        = 99 ∧
    updateWantedPositionIfAfterManifest p6ObservationCovered p6Manifest
        = p6ObservationCovered := by
  refine ⟨?_, by with_unfolding_all decide, by with_unfolding_all decide⟩
  intro observation manifest
  unfold updateWantedPositionIfAfterManifest wantedCorrectionSpec
  rcases hlast : manifest.periods.getLast? with _ | lastPeriod
  · cases hdyn : manifest.isDynamic <;> simp [hlast, hdyn]
  · rcases hstop : lastPeriod.stop with _ | periodEnd
    · cases hdyn : manifest.isDynamic <;> simp [hlast, hstop, hdyn]
    · cases hdyn : manifest.isDynamic <;> cases hknown : manifest.isLastPeriodKnown <;>
        simp [hlast, hstop, hdyn, hknown, ObservationPosition.forceWantedPosition,
              ObservationPosition.getWanted] <;>
        split_ifs <;> first | rfl | tauto

/-- Modelled from the spec: the MSE media-source collaborator, reduced to what
this subsystem reads from it — "per buffer-type key, the currently buffered
time-range set" (§6). -/
structure IMediaSourceInterface where
  bufferedPerType : List (String × List TimeRange)
deriving DecidableEq, Repr

/-- Modelled from the spec: the text-displayer collaborator, reduced to the
buffered time-range set it reports for the text buffer type (§6). -/
structure ITextDisplayer where
  buffered : List TimeRange
deriving DecidableEq, Repr

/-- Modelled from the spec: `getBufferedDataPerMediaBuffer(mediaSource,
textDisplayer)` — the builder "delegates per-media-buffer buffered-range
computation to the external media-buffer/text-displayer collaborators (their
interface: given buffer-type identifiers, return the buffered time ranges
known for each)" (§4.6.5).  Its own source is not among the provided files;
collecting each collaborator's reported ranges per buffer-type key is
faithful to the spec's words. -/
def getBufferedDataPerMediaBuffer (mediaSource : Option IMediaSourceInterface)
    (textDisplayer : Option ITextDisplayer) : List (String × List TimeRange) :=
  (match mediaSource with
   | some ms => ms.bufferedPerType
   | none => []) ++
  (match textDisplayer with
   | some td => [("text", td.buffered)]
   | none => [])

/-- The `paused: { last, pending }` field of the core observation. -/
structure PausedInfo where
  last : Bool
  pending : Option Bool
deriving DecidableEq, Repr

/-- The fused core playback observation (`ICorePlaybackObservation`) built by
`constructCorePlaybackObservation`. -/
structure ICorePlaybackObservation where
  maximumPosition : ℚ
  bufferGap : ℚ
  position : ObservationPosition
  buffered : List (String × List TimeRange)
  duration : ℚ
  rebuffering : Bool
  freezing : Bool
  paused : PausedInfo
  readyState : ℕ
  speed : ℚ
deriving DecidableEq, Repr

/-- Embeds `getPendingPaused(initialPlayPerformed, autoPlay)` from
`create_core_playback_observer.ts` (lines 157-163).  The source reads
`initialPlayPerformed.getValue()`; the embedding receives that current value
directly. -/
def getPendingPaused (initialPlayPerformed : Bool) (autoPlay : Bool) :
    Option Bool :=
  if initialPlayPerformed then none else some (!autoPlay)

/-- The fixed inputs captured by the `createCorePlaybackObserver` closure:
the `autoPlay` flag, the manifest, and the media-source / text-displayer
collaborators. -/
structure CoreBuilderContext where
  autoPlay : Bool
  manifest : IManifestMetadata
  mediaSource : Option IMediaSourceInterface
  textDisplayer : Option ITextDisplayer
deriving DecidableEq, Repr

/-- Embeds `constructCorePlaybackObservation()` from
`create_core_playback_observer.ts` (lines 100-118), given the current value
of the base observation reference, of the speed reference and of the
`initialPlayPerformed` reference.  The source first calls
`updateWantedPositionIfAfterManifest(observation, manifest)`, which mutates
the base observation in place, then builds the core observation from the
mutated observation; the embedding returns the pair
(mutated base observation, freshly built core observation). -/
def constructCorePlaybackObservation (ctx : CoreBuilderContext)
    (observationRefValue : IPlaybackObservation) (speedValue : ℚ)
    (initialPlayPerformed : Bool) :
    IPlaybackObservation × ICorePlaybackObservation :=
  let observation := updateWantedPositionIfAfterManifest observationRefValue ctx.manifest
  (observation,
   { maximumPosition := getMaximumSafePosition ctx.manifest
     bufferGap := observation.bufferGap
     position := observation.position
     buffered := getBufferedDataPerMediaBuffer ctx.mediaSource ctx.textDisplayer
     duration := observation.duration
     rebuffering := observation.rebuffering
     freezing := observation.freezing
     paused := { last := observation.paused
                 pending := getPendingPaused initialPlayPerformed ctx.autoPlay }
     readyState := observation.readyState
     speed := speedValue })

/-- The observable state of one `createCorePlaybackObserver` derivation:
the current value held by the base observation reference (`observationRef`),
by the speed reference, by the `initialPlayPerformed` reference, and by the
derived reference (`newRef`); `emitted` logs every `newRef.setValue` call
performed by `emitCorePlaybackObservation`, and `setupRuns` counts executions
of the `transform` setup body. -/
structure BuilderState where
  baseObservation : IPlaybackObservation
  speedValue : ℚ
  initialPlayPerformed : Bool
  coreRef : ICorePlaybackObservation
  emitted : List ICorePlaybackObservation
  setupRuns : ℕ
deriving DecidableEq, Repr

/-- The update events the derivation reacts to: a new value set on the base
observation reference, on the speed reference, or on the
`initialPlayPerformed` reference (the transform subscribes only to the first
two; `initialPlayPerformed` is merely read during construction). -/
inductive BuilderEvent
  | updateBase (v : IPlaybackObservation)
  | updateSpeed (v : ℚ)
  | updateInitialPlayPerformed (b : Bool)
deriving DecidableEq, Repr

/-- The `transform` setup body of `createCorePlaybackObserver`
(`create_core_playback_observer.ts` lines 77-123): runs once, builds the
initial value of `newRef` with `constructCorePlaybackObservation()` (mutating
the base observation through the wanted-position correction), and registers
the two `onUpdate` subscriptions with `emitCurrentValue: false`, so nothing
is emitted to listeners at registration time. -/
def createCorePlaybackObserverSetup (ctx : CoreBuilderContext)
    (observationRefValue : IPlaybackObservation) (speedValue : ℚ)
    (initialPlayPerformed : Bool) : BuilderState :=
  let r := constructCorePlaybackObservation ctx observationRefValue speedValue
             initialPlayPerformed
  { baseObservation := r.1
    speedValue := speedValue
    initialPlayPerformed := initialPlayPerformed
    coreRef := r.2
    emitted := []
    setupRuns := 1 }

/-- One update after setup.  A `set` on the base observation reference or on
the speed reference stores the new value and synchronously runs the
registered `emitCorePlaybackObservation` handler, which performs exactly one
`newRef.setValue(constructCorePlaybackObservation())`; the construction reads
the current values of both references and mutates the stored base observation
in place through the wanted-position correction.  An update of
`initialPlayPerformed` has no subscription and triggers nothing. -/
def createCorePlaybackObserverStep (ctx : CoreBuilderContext)
    (s : BuilderState) : BuilderEvent → BuilderState
  | .updateBase v =>
    let r := constructCorePlaybackObservation ctx v s.speedValue
               s.initialPlayPerformed
    { s with baseObservation := r.1
             coreRef := r.2
             emitted := s.emitted ++ [r.2] }
  | .updateSpeed v =>
    let r := constructCorePlaybackObservation ctx s.baseObservation v
               s.initialPlayPerformed
    { s with speedValue := v
             baseObservation := r.1
             coreRef := r.2
             emitted := s.emitted ++ [r.2] }
  | .updateInitialPlayPerformed b =>
    { s with initialPlayPerformed := b }

/-- A concrete derivation context over P6's manifest: non-dynamic manifest
with last period `[0, 100)`, no media source, no text displayer. -/
def exCtx : CoreBuilderContext :=
  { autoPlay := true
    manifest := p6Manifest
    mediaSource := none
    textDisplayer := none }

/-- A concrete builder state whose base observation reference currently holds
P6's observation (wanted position 99.5, duration 100, buffered `[0, 90)`),
i.e. the published base observation downstream consumers also see. -/
def exState : BuilderState :=
  { baseObservation := p6Observation
    speedValue := 1
    initialPlayPerformed := true
    coreRef := (constructCorePlaybackObservation exCtx p6Observation 1 true).2
    emitted := []
    setupRuns := 1 }

/-- C2 counterexample: the claim "no field of an already-published
observation (… nor the published base observation the builder reads) is ever
mutated in place" is false on the code.  On a rebuild triggered by a speed
update, `constructCorePlaybackObservation` calls
`updateWantedPositionIfAfterManifest`, which calls
`observation.position.forceWantedPosition(lastPeriod.end - 1)` on the value
read from the published base observation reference: after the rebuild the
stored base observation differs from the one published before it (its wanted
position was overwritten from 99.5 to 99). -/
theorem corePlaybackObserver_mutates_published_base_observation :
    (createCorePlaybackObserverStep exCtx exState (.updateSpeed 1)).baseObservation
      ≠ exState.baseObservation := by
  with_unfolding_all decide

/-- C2 as amended: each rebuild constructs the core observation afresh from
the current values of the inputs — the new value does not depend on the
previously published core observation or emission log, and all previously
emitted observations are preserved unchanged, the new value being appended —
but the base observation read from the base reference is mutated in place by
the wanted-position correction (it becomes the first component of
`constructCorePlaybackObservation`). -/
theorem corePlaybackObserver_rebuild_constructs_new_value :
    ∀ (ctx : CoreBuilderContext) (s : BuilderState) (v : IPlaybackObservation)
      (q : ℚ) (c : ICorePlaybackObservation) (l : List ICorePlaybackObservation),
    (createCorePlaybackObserverStep ctx s (.updateBase v)).coreRef
        = (constructCorePlaybackObservation ctx v s.speedValue s.initialPlayPerformed).2 ∧
    (createCorePlaybackObserverStep ctx s (.updateSpeed q)).coreRef
        = (constructCorePlaybackObservation ctx s.baseObservation q s.initialPlayPerformed).2 ∧
    (createCorePlaybackObserverStep ctx { s with coreRef := c, emitted := l }
        (.updateBase v)).coreRef
        = (createCorePlaybackObserverStep ctx s (.updateBase v)).coreRef ∧
    (createCorePlaybackObserverStep ctx { s with coreRef := c, emitted := l }
        (.updateSpeed q)).coreRef
        = (createCorePlaybackObserverStep ctx s (.updateSpeed q)).coreRef ∧
    (createCorePlaybackObserverStep ctx s (.updateBase v)).emitted
        = s.emitted ++ [(createCorePlaybackObserverStep ctx s (.updateBase v)).coreRef] ∧
    (createCorePlaybackObserverStep ctx s (.updateSpeed q)).emitted
        = s.emitted ++ [(createCorePlaybackObserverStep ctx s (.updateSpeed q)).coreRef] ∧
    (createCorePlaybackObserverStep ctx s (.updateBase v)).baseObservation
        = (constructCorePlaybackObservation ctx v s.speedValue s.initialPlayPerformed).1 := by
  intro ctx s v q c l
  exact ⟨rfl, rfl, rfl, rfl, rfl, rfl, rfl⟩

/-- C4: the core builder computes `paused.pending` as `undefined` when the
`initialPlayPerformed` reference currently holds `true` and as `!autoPlay`
otherwise; in particular it is `some true` before initial play with
`autoPlay = false`, and `none` after initial play regardless of `autoPlay`. -/
theorem corePlaybackObserver_pending_paused :
    ∀ (ctx : CoreBuilderContext) (obs : IPlaybackObservation) (sv : ℚ)
      (ipp : Bool),
    ((constructCorePlaybackObservation ctx obs sv ipp).2).paused.pending
        = (if ipp then none else some (!ctx.autoPlay)) ∧
    ((constructCorePlaybackObservation ctx obs sv true).2).paused.pending = none ∧
    (∀ (m : IManifestMetadata) (ms : Option IMediaSourceInterface)
       (td : Option ITextDisplayer),
       ((constructCorePlaybackObservation ⟨false, m, ms, td⟩ obs sv false).2).paused.pending
         = some true) := by
  intro ctx obs sv ipp
  refine ⟨?_, rfl, fun m ms td => rfl⟩
  cases ipp <;> rfl

/-- C8: once the transform's setup has run (exactly once, registering the two
subscriptions with `emitCurrentValue: false`, hence emitting nothing at
registration time), every base observation update and every speed update each
trigger exactly one recomputation — one new core observation constructed from
the current values of both references and set on the derived reference —
and no event re-invokes the setup body. -/
theorem corePlaybackObserver_reactive_updates :
    ∀ (ctx : CoreBuilderContext) (s : BuilderState) (v : IPlaybackObservation)
      (q : ℚ) (obs0 : IPlaybackObservation) (q0 : ℚ) (b0 : Bool),
    (createCorePlaybackObserverStep ctx s (.updateBase v)).emitted
        = s.emitted
            ++ [(constructCorePlaybackObservation ctx v s.speedValue s.initialPlayPerformed).2] ∧
    (createCorePlaybackObserverStep ctx s (.updateBase v)).coreRef
        = (constructCorePlaybackObservation ctx v s.speedValue s.initialPlayPerformed).2 ∧
    (createCorePlaybackObserverStep ctx s (.updateSpeed q)).emitted
        = s.emitted
            ++ [(constructCorePlaybackObservation ctx s.baseObservation q s.initialPlayPerformed).2] ∧
    (createCorePlaybackObserverStep ctx s (.updateSpeed q)).coreRef
        = (constructCorePlaybackObservation ctx s.baseObservation q s.initialPlayPerformed).2 ∧
    (∀ e : BuilderEvent,
       (createCorePlaybackObserverStep ctx s e).setupRuns = s.setupRuns) ∧
    (createCorePlaybackObserverSetup ctx obs0 q0 b0).emitted = [] ∧
    (createCorePlaybackObserverSetup ctx obs0 q0 b0).setupRuns = 1 := by
  intro ctx s v q obs0 q0 b0
  refine ⟨rfl, rfl, rfl, rfl, ?_, rfl, rfl⟩
  intro e
  cases e <;> rfl

/-- C9: `maximumPosition` is recomputed from the manifest's state at the
moment each core observation is constructed: whatever stale core observation
the derived reference currently holds, the observation produced by a rebuild
carries `getMaximumSafePosition` of the manifest in force at that rebuild. -/
theorem corePlaybackObserver_maximumPosition_fresh :
    ∀ (ctx : CoreBuilderContext) (obs : IPlaybackObservation) (sv : ℚ)
      (ipp : Bool) (s : BuilderState) (v : IPlaybackObservation) (q : ℚ),
    ((constructCorePlaybackObservation ctx obs sv ipp).2).maximumPosition
        = getMaximumSafePosition ctx.manifest ∧
    ((createCorePlaybackObserverStep ctx s (.updateBase v)).coreRef).maximumPosition
        = getMaximumSafePosition ctx.manifest ∧
    ((createCorePlaybackObserverStep ctx s (.updateSpeed q)).coreRef).maximumPosition
        = getMaximumSafePosition ctx.manifest := by
  intro ctx obs sv ipp s v q
  exact ⟨rfl, rfl, rfl⟩

/-- The message types of the cross-boundary transport used by this subsystem
(`WorkerMessageType`); only `UpdatePlaybackRate` is sent by the worker
playback observer. -/
inductive WorkerMessageType
  | updatePlaybackRate
deriving DecidableEq, Repr

/-- An outbound message `{type, contentId, value}` passed to `sendMessage`. -/
structure WorkerOutboundMessage where
  type : WorkerMessageType
  contentId : String
  value : ℚ
deriving DecidableEq, Repr

/-- The `WorkerPlaybackObserver` of
`worker_playback_observer.ts`: `src` holds the current value of the backing
shared reference `_src`, `contentId` is `_contentId`, and
`cancelSignalCancelled` is the current `_cancelSignal.isCancelled()` state
(the cancellation signal is abstracted to that queried flag). -/
structure WorkerPlaybackObserver (Obs : Type) where
  src : Obs
  contentId : String
  cancelSignalCancelled : Bool
deriving DecidableEq, Repr

/-- Embeds `getCurrentTime()`: `return undefined;`.  Methods are embedded as pure
functions returning (result, outbound messages sent, observer afterwards) so
that absence of side effects is provable. -/
def WorkerPlaybackObserver.getCurrentTime {Obs : Type}
    (o : WorkerPlaybackObserver Obs) :
    Option ℚ × List WorkerOutboundMessage × WorkerPlaybackObserver Obs :=
  (none, [], o)

/-- Embeds `getReadyState()`: `return undefined;`. -/
def WorkerPlaybackObserver.getReadyState {Obs : Type}
    (o : WorkerPlaybackObserver Obs) :
    Option ℕ × List WorkerOutboundMessage × WorkerPlaybackObserver Obs :=
  (none, [], o)

/-- Embeds `getIsPaused()`: `return undefined;`. -/
def WorkerPlaybackObserver.getIsPaused {Obs : Type}
    (o : WorkerPlaybackObserver Obs) :
    Option Bool × List WorkerOutboundMessage × WorkerPlaybackObserver Obs :=
  (none, [], o)

/-- Embeds `getPlaybackRate()`: `return undefined;`. -/
def WorkerPlaybackObserver.getPlaybackRate {Obs : Type}
    (o : WorkerPlaybackObserver Obs) :
    Option ℚ × List WorkerOutboundMessage × WorkerPlaybackObserver Obs :=
  (none, [], o)

/-- Embeds `setPlaybackRate(playbackRate)`: calls
`sendMessage({ type: UpdatePlaybackRate, contentId: this._contentId,
value: playbackRate })` and returns; the embedding returns the list of
messages handed to `sendMessage` together with the (unchanged) observer. -/
def WorkerPlaybackObserver.setPlaybackRate {Obs : Type}
    (o : WorkerPlaybackObserver Obs) (playbackRate : ℚ) :
    List WorkerOutboundMessage × WorkerPlaybackObserver Obs :=
  ([{ type := WorkerMessageType.updatePlaybackRate
      contentId := o.contentId
      value := playbackRate }], o)

/-- The options of `WorkerPlaybackObserver.listen`; each optional
cancellation signal is abstracted to its `isCancelled()` value
(`none` = no `clearSignal` given). -/
structure ListenOptions where
  includeLastObservation : Option Bool
  clearSignalCancelled : Option Bool
deriving DecidableEq, Repr

/-- The registration performed by `SharedReference.onUpdate(cb, options)`:
which `emitCurrentValue` flag and which `clearSignal` the callback was
registered with (spec §4.1). -/
structure OnUpdateRegistration where
  emitCurrentValue : Option Bool
  clearSignalCancelled : Option Bool
deriving DecidableEq, Repr

/-- Embeds `listen(cb, options)` from `worker_playback_observer.ts` (lines 54-71):
returns early — registering nothing — when the observer's own cancellation
signal is already cancelled or `options?.clearSignal?.isCancelled() === true`;
otherwise registers the callback on `_src` via `onUpdate`, forwarding
`options?.clearSignal` and mapping `options?.includeLastObservation` to
`emitCurrentValue`.  The embedding returns the registration performed, if
any. -/
def WorkerPlaybackObserver.listen {Obs : Type} (o : WorkerPlaybackObserver Obs)
    (options : Option ListenOptions) : Option OnUpdateRegistration :=
  if o.cancelSignalCancelled = true ∨
     options.bind (fun x => x.clearSignalCancelled) = some true then
    none
  else
    some { emitCurrentValue := options.bind (fun x => x.includeLastObservation)
           clearSignalCancelled := options.bind (fun x => x.clearSignalCancelled) }

/-- C5: every direct clock query of the worker playback observer —
`getCurrentTime`, `getReadyState`, `getIsPaused`, `getPlaybackRate` — returns
`undefined`, sends no message and leaves the observer's state unchanged. -/
theorem workerPlaybackObserver_clock_queries_undefined :
    ∀ {Obs : Type} (o : WorkerPlaybackObserver Obs),
    o.getCurrentTime = (none, [], o) ∧
    o.getReadyState = (none, [], o) ∧
    o.getIsPaused = (none, [], o) ∧
    o.getPlaybackRate = (none, [], o) := by
  intro Obs o
  exact ⟨rfl, rfl, rfl, rfl⟩

/-- C6: `setPlaybackRate(rate)` sends exactly one outbound message, of type
`UpdatePlaybackRate`, carrying the observer's `contentId` and the given rate
as `value`, and leaves the observer's local state (including the backing
reference's value) unchanged. -/
theorem workerPlaybackObserver_setPlaybackRate_sends_one_message :
    ∀ {Obs : Type} (o : WorkerPlaybackObserver Obs) (rate : ℚ),
    (o.setPlaybackRate rate).1
        = [{ type := WorkerMessageType.updatePlaybackRate
             contentId := o.contentId
             value := rate }] ∧
    (o.setPlaybackRate rate).1.length = 1 ∧
    (o.setPlaybackRate rate).2 = o := by
  intro Obs o rate
  exact ⟨rfl, rfl, rfl⟩

/-- C7: `listen(cb, options)` registers nothing when the observer's own
cancellation signal is already cancelled or the given `clearSignal` is
already cancelled; otherwise it registers the callback on the backing
reference with `emitCurrentValue` mapped from
`options?.includeLastObservation` and the `clearSignal` passed through. -/
theorem workerPlaybackObserver_listen_correct :
    ∀ {Obs : Type} (o : WorkerPlaybackObserver Obs)
      (options : Option ListenOptions),
    (o.cancelSignalCancelled = true ∨
       options.bind (fun x => x.clearSignalCancelled) = some true →
     o.listen options = none) ∧
    (¬(o.cancelSignalCancelled = true ∨
         options.bind (fun x => x.clearSignalCancelled) = some true) →
     o.listen options
       = some { emitCurrentValue := options.bind (fun x => x.includeLastObservation)
                clearSignalCancelled := options.bind (fun x => x.clearSignalCancelled) }) := by
  intro Obs o options
  constructor
  · intro h
    unfold WorkerPlaybackObserver.listen
    rw [if_pos h]
  · intro h
    unfold WorkerPlaybackObserver.listen
    rw [if_neg h]

/-- Witness for C7: on a concrete observer whose own signal is already
cancelled the registration is skipped, and on a live observer the callback is
registered with the options mapped through. -/
theorem workerPlaybackObserver_listen_correct_witness :
    WorkerPlaybackObserver.listen ⟨(0 : ℚ), "c", true⟩ none = none ∧
    WorkerPlaybackObserver.listen ⟨(0 : ℚ), "c", false⟩
        (some { includeLastObservation := some true
                clearSignalCancelled := some false })
      = some { emitCurrentValue := some true, clearSignalCancelled := some false } := by
  constructor
  · exact (workerPlaybackObserver_listen_correct ⟨(0 : ℚ), "c", true⟩ none).1
      (Or.inl rfl)
  · exact (workerPlaybackObserver_listen_correct ⟨(0 : ℚ), "c", false⟩
      (some { includeLastObservation := some true
              clearSignalCancelled := some false })).2 (by decide)

/-- An inbound cross-boundary observation message `{contentId, value}`. -/
structure InboundObservationMessage (Obs : Type) where
  contentId : String
  value : Obs
deriving DecidableEq, Repr

/-- Modelled from the spec: the worker-side handler for inbound observation
messages, whose source is not among the provided files (only the observer
class reading the backing reference is).  Spec §4.5: the "backing reference
is populated solely by inbound messages tagged with a matching content
identifier; messages for any other identifier are silently dropped", and §6:
"every inbound message not matching the live contentId must be ignored".
Given the active contentId and the backing reference's current value, the
handler yields the reference's next value. -/
def handleInboundObservationMessage {Obs : Type} (activeContentId : String)
    (currentValue : Obs) (msg : InboundObservationMessage Obs) : Obs :=
  if msg.contentId = activeContentId then msg.value else currentValue

/-- C3: an inbound cross-boundary message whose contentId does not match the
currently active content leaves the observer's backing reference value
unchanged. -/
theorem inboundMessage_contentId_mismatch_discarded :
    ∀ {Obs : Type} (activeContentId : String) (currentValue : Obs)
      (msg : InboundObservationMessage Obs),
    msg.contentId ≠ activeContentId →
    handleInboundObservationMessage activeContentId currentValue msg
      = currentValue := by
  intro Obs activeContentId currentValue msg h
  unfold handleInboundObservationMessage
  rw [if_neg h]

/-- Witness for C3, P7's concrete instance: an observer active for contentId
"A" receiving a message tagged contentId "B" keeps its reference value. -/
theorem inboundMessage_contentId_mismatch_discarded_witness :
    handleInboundObservationMessage "A" (0 : ℚ) ⟨"B", 1⟩ = 0 :=
  inboundMessage_contentId_mismatch_discarded "A" (0 : ℚ) ⟨"B", 1⟩ (by decide)

/-- The slice of the segment metadata (`ISegment`) read by
`getISOBMFFTimingInfos`: `time` and `timescale` are always numbers, while
`duration` and `timestampOffset` may be absent (`!= null` checks in the
source). -/
structure ISegment where
  time : ℚ
  duration : Option ℚ
  timescale : ℚ
  timestampOffset : Option ℚ
deriving DecidableEq, Repr

/-- A pre-parsed sidx segment (`ISidxSegment`) as read by
`getISOBMFFTimingInfos`: its `time` is a number, its `duration` may be absent
(the source guards with `b.duration || 0`), and its `timescale` may be absent
(`sidxTimescale != null`). -/
structure ISidxSegment where
  time : ℚ
  duration : Option ℚ
  timescale : Option ℚ
deriving DecidableEq, Repr

/-- The chunk timing information (`IChunkTimingInfos`) returned by
`getISOBMFFTimingInfos`: `duration` is `undefined` (`none`) in the chunked
case. -/
structure IChunkTimingInfos where
  time : ℚ
  duration : Option ℚ
  timescale : ℚ
deriving DecidableEq, Repr

/-- Embeds `getISOBMFFTimingInfos` from `transports/dash/isobmff_timing_infos.ts`
(lines 51-159).  The ISOBMFF box parsers are external collaborators (box
parsing is out of scope per spec §1), and both are pure functions of the
`buffer` argument alone, so the buffer is abstracted to their two results:
`baseDecodeTime` stands for `getTrackFragmentDecodeTime(buffer)` and
`trunDuration` for `getDurationFromTrun(buffer)` (each negative when the
corresponding box is missing, matching the source's `< 0` / `>= 0` guards).
JS truthiness on `initInfos.timescale` is `≠ 0`; the `|| 0` guards on
`segment.time`, `startTime` and `duration` map `undefined` to 0 and 0 to
itself.  The `__DEV__` assertions are debug-only and elided. -/
def getISOBMFFTimingInfos (baseDecodeTime trunDuration : ℚ) (isChunked : Bool)
    (segment : ISegment) (sidxSegments : Option (List ISidxSegment))
    (initInfos : Option IChunkTimingInfos) : Option IChunkTimingInfos :=
  let sidxSegs := sidxSegments.getD []
  if isChunked then
    if baseDecodeTime < 0 then none
    else
      match initInfos with
      | none => none
      | some ii =>
        some { time := baseDecodeTime, duration := none, timescale := ii.timescale }
  else
    let timescale :=
      match initInfos with
      | some ii => if ii.timescale ≠ 0 then ii.timescale else segment.timescale
      | none => segment.timescale
    let mdd :=
      if timescale = segment.timescale then
        (min (timescale * (9 / 10))
             (match segment.duration with
              | some d => d / 4
              | none => 1 / 4),
         segment.time,
         segment.duration)
      else
        (min (timescale * (9 / 10))
             (match segment.duration with
              | some d => d / segment.timescale * timescale / 4
              | none => 1 / 4),
         segment.time / segment.timescale * timescale,
         segment.duration.map (fun d => d / segment.timescale * timescale))
    let maxDecodeTimeDelta := mdd.1
    let segmentStart := mdd.2.1
    let segmentDuration := mdd.2.2
    let startTime0 : Option ℚ :=
      if 0 ≤ baseDecodeTime then
        some (match segment.timestampOffset with
              | some off => baseDecodeTime + off * timescale
              | none => baseDecodeTime)
      else none
    let durationMatchesSegment : Bool :=
      match segmentDuration with
      | none => true
      | some sd => decide (|trunDuration - sd| ≤ maxDecodeTimeDelta)
    let duration0 : Option ℚ :=
      if decide (0 ≤ trunDuration) && durationMatchesSegment then
        some trunDuration
      else none
    let startTime1 : ℚ :=
      match startTime0 with
      | some s => s
      | none =>
        match sidxSegs with
        | [] => segmentStart
        | s0 :: _ =>
          if 0 ≤ s0.time then
            let baseStartTime :=
              match s0.timescale with
              | some sidxTimescale =>
                if sidxTimescale ≠ timescale then s0.time / sidxTimescale * timescale
                else s0.time
              | none => s0.time
            match segment.timestampOffset with
            | some off => baseStartTime + off * timescale
            | none => baseStartTime
          else segmentStart
    let duration1 : Option ℚ :=
      match duration0 with
      | some d => some d
      | none =>
        match sidxSegs with
        | [] => segmentDuration
        | _ :: _ =>
          let sidxDuration := sidxSegs.foldl (fun a b => a + b.duration.getD 0) 0
          if 0 ≤ sidxDuration then some sidxDuration else segmentDuration
    some { time := startTime1
           duration := some (duration1.getD 0)
           timescale := timescale }

/-- The concrete segment used in C10's fallback instance: time 5, timescale
10, no announced duration and no timestamp offset. -/
def exSegment : ISegment :=
  { time := 5, duration := none, timescale := 10, timestampOffset := none }

/-- C10: with `isChunked = true`, `getISOBMFFTimingInfos` returns `null`
exactly when the track-fragment base decode time is negative or `initInfos`
is absent, and otherwise returns
`{ time: baseDecodeTime, duration: undefined, timescale: initInfos.timescale }`;
with `isChunked = false` it never returns `null` and the returned time and
duration are always numbers, the duration falling back to 0 when neither the
container (`trun`), the sidx segments, nor the segment metadata supply a
value — verified on a concrete such input. -/
theorem getISOBMFFTimingInfos_correct :
    ∀ (baseDecodeTime trunDuration : ℚ) (segment : ISegment)
      (sidxSegments : Option (List ISidxSegment))
      (initInfos : Option IChunkTimingInfos),
    (getISOBMFFTimingInfos baseDecodeTime trunDuration true segment sidxSegments
        initInfos = none ↔ baseDecodeTime < 0 ∨ initInfos = none) ∧
    (∀ ii, initInfos = some ii → 0 ≤ baseDecodeTime →
       getISOBMFFTimingInfos baseDecodeTime trunDuration true segment sidxSegments
           initInfos
         = some { time := baseDecodeTime, duration := none, timescale := ii.timescale }) ∧
    (∃ r, getISOBMFFTimingInfos baseDecodeTime trunDuration false segment
            sidxSegments initInfos = some r ∧ ∃ d, r.duration = some d) ∧
    getISOBMFFTimingInfos (-1) (-1) false exSegment none none
      = some { time := 5, duration := some 0, timescale := 10 } := by
  intro baseDecodeTime trunDuration segment sidxSegments initInfos
  refine ⟨?_, ?_, ?_, by with_unfolding_all decide⟩
  · unfold getISOBMFFTimingInfos
    by_cases hb : baseDecodeTime < 0
    · simp [hb]
    · cases initInfos <;> simp [hb]
  · intro ii hii hb
    subst hii
    unfold getISOBMFFTimingInfos
    rw [if_pos rfl, if_neg (not_lt.mpr hb)]
  · exact ⟨_, rfl, _, rfl⟩

/-- Witness for C10: a chunked call with a non-negative base decode time (3)
and init infos of timescale 7 yields
`{ time: 3, duration: undefined, timescale: 7 }`. -/
theorem getISOBMFFTimingInfos_correct_witness :
    getISOBMFFTimingInfos 3 2 true exSegment none
        (some { time := 0, duration := none, timescale := 7 })
      = some { time := 3, duration := none, timescale := 7 } :=
  (getISOBMFFTimingInfos_correct 3 2 exSegment none
      (some { time := 0, duration := none, timescale := 7 })).2.1
    { time := 0, duration := none, timescale := 7 } rfl (by decide)

end RxPlayer
